import Mathlib

/-!
Shallow embedding of the SkyGuard PM2.5 resolution pipeline.

The repository contains two near-duplicate engine variants:
* `skyblue2.py` — freshness filter (`is_data_fresh`, 7 days) guards the
  accumulator, WAQI fallback on every exhausted primary path, no station cap,
  no rate-limit handling;
* `skyblue.py` — caps probing at `DEFAULT_MAX_STATIONS_TO_QUERY = 10`
  stations, handles HTTP 429 via a session flag with a single aggregate
  warning, but performs no freshness check and never calls WAQI from
  `get_pm25`.

Network responses are inputs of the embedding; the pure decision logic is
translated line by line.  Timestamps are carried as the ISO strings the code
actually compares (Python compares `dt_iso` strings lexicographically);
parsing (`datetime.fromisoformat`) is abstracted as a `String → Option Int`
function giving seconds since an epoch.
-/

namespace SkyGuard

/-- Equality of `Except` outcomes is decidable; used to evaluate concrete
runs of the probe loops. -/
instance {e a : Type} [DecidableEq e] [DecidableEq a] : DecidableEq (Except e a) := fun x y =>
  match x, y with
  | .error u, .error v => decidable_of_iff (u = v) (by simp)
  | .error _, .ok _ => isFalse (fun h => Except.noConfusion h)
  | .ok _, .error _ => isFalse (fun h => Except.noConfusion h)
  | .ok u, .ok v => decidable_of_iff (u = v) (by simp)

/-- One element of `loc["sensors"]`: the fields `parameter.name` and `id`,
each possibly absent (Python `dict.get` returning `None`). -/
structure Sensor where
  parameterName : Option String
  sensorId : Option Nat
deriving Repr, DecidableEq

/-- One element of the `locations` results: fields `name`, `distance`
(provider-reported meters; absent models `loc.get('distance', float('inf'))`
falling back to infinity) and `sensors`. -/
structure Location where
  name : Option String
  distance : Option Nat
  sensors : List Sensor
deriving Repr, DecidableEq

/-- `any(s.get("parameter", {}).get("name") == "pm25" for s in loc.get("sensors", []))`. -/
def hasPm25Sensor (loc : Location) : Bool :=
  loc.sensors.any (fun s => s.parameterName == some "pm25")

/-- The sort key `loc.get('distance', float('inf'))` as a Boolean comparison:
a missing distance compares as `+inf`. -/
def distLe (a b : Location) : Bool :=
  match a.distance, b.distance with
  | some x, some y => x ≤ y
  | some _, none => true
  | none, some _ => false
  | none, none => true

/-- `distLe` as a relation, for `List.insertionSort`. -/
def locDistLe (a b : Location) : Prop := distLe a b = true

instance : DecidableRel locDistLe := fun a b => Bool.decEq (distLe a b) true

instance : IsTotal Location locDistLe where
  total a b := by
    unfold locDistLe distLe
    rcases a.distance with _ | x <;> rcases b.distance with _ | y <;> simp
    omega

instance : IsTrans Location locDistLe where
  trans a b c := by
    unfold locDistLe distLe
    rcases a.distance with _ | x <;> rcases b.distance with _ | y <;>
      rcases c.distance with _ | z <;> simp
    omega

/-- Pure part of `find_locations_by_coordinates` (identical in both variants):
on a successful provider response keep the locations with a PM2.5 sensor and
stable-sort them ascending by reported distance; any caught exception yields
`[]`.  Python's `sorted` is a stable sort with respect to the total preorder
on keys, modelled by `List.insertionSort` (stable for the same reason: an
element is inserted after all earlier tied elements). -/
def find_locations_by_coordinates (resp : Except String (List Location)) : List Location :=
  match resp with
  | .error _ => []
  | .ok locations =>
    let pm25_locations := locations.filter hasPm25Sensor
    List.insertionSort locDistLe pm25_locations

/-- `get_pm25_sensor_id_from_location`: id of the first sensor whose
parameter name is `"pm25"` (the Python loop returns that sensor's
`.get("id")`, which may itself be `None`). -/
def get_pm25_sensor_id_from_location (loc : Location) : Option Nat :=
  match loc.sensors.find? (fun s => s.parameterName == some "pm25") with
  | some s => s.sensorId
  | none => none

/-- Python truthiness of `Optional[int]` used in `if not pm25_sensor_id:
continue` — both `None` and `0` are falsy. -/
def truthyId : Option Nat → Option Nat
  | none => none
  | some i => if i = 0 then none else some i

/-- One record of the `sensors/{id}/measurements` results: the fields
`value` and `period.datetimeTo.utc`. -/
structure Entry where
  value : Option ℚ
  dtUtc : Option String
deriving Repr, DecidableEq

/-- Truthiness of `r.get("period", {}).get("datetimeTo", {}).get("utc")`:
present and a non-empty string. -/
def entryHasDt (r : Entry) : Bool :=
  match r.dtUtc with
  | some s => !(s == "")
  | none => false

/-- Lexicographic comparison of code-point sequences: Python's `<` on
`str` compares code points left to right, shorter prefix first. -/
def charListLt : List Char → List Char → Bool
  | [], [] => false
  | [], _ :: _ => true
  | _ :: _, [] => false
  | a :: as, b :: bs =>
    if a.toNat < b.toNat then true
    else if b.toNat < a.toNat then false
    else charListLt as bs

/-- Python's `s < t` on strings. -/
def pyStrLt (s t : String) : Bool := charListLt s.data t.data

/-- Python's `s <= t` on strings (`¬ t < s` for this total order). -/
def pyStrLe (s t : String) : Bool := !(pyStrLt t s)

/-- `sorted(xs, key=key, reverse=True)[0]` for a non-empty list,
`key x` prepended: CPython's sort is stable and `reverse=True` keeps ties in
original order, so the head of the reversed sort is the first element
attaining the maximal key. -/
def argmaxFirst {α : Type} (key : α → String) (x : α) (xs : List α) : α :=
  xs.foldl (fun best y => if pyStrLt (key best) (key y) then y else best) x

/-- Pure part of `get_latest_measurement_from_sensor` after the HTTP call:
filter entries with a usable end-of-period UTC timestamp, pick the one with
the maximal timestamp (re-sorted locally, ignoring the provider's order),
and return its value and timestamp; `(none, none)` when nothing usable. -/
def latestFromResults (results : List Entry) : Option ℚ × Option String :=
  match results.filter entryHasDt with
  | [] => (none, none)
  | e :: es =>
    let latest := argmaxFirst (fun r => r.dtUtc.getD "") e es
    match latest.value with
    | some v => (some v, latest.dtUtc)
    | none => (none, none)

/-- A fresh accumulator entry `{"value": v, "dt_iso": dt, "source": ...}`. -/
structure Meas where
  value : ℚ
  dtIso : String
  source : String
deriving Repr, DecidableEq

/-- `is_data_fresh(dt_iso, max_age_days)`: `False` on a falsy string, `False`
when parsing raises, else `(now_utc - dt_utc).days <= max_age_days` where
`timedelta.days` is the floor of the duration in whole days
(`Int.fdiv` of the age in seconds by 86400). -/
def is_data_fresh (parse : String → Option Int) (now : Int)
    (dtIso : Option String) (maxAgeDays : Int) : Bool :=
  match dtIso with
  | none => false
  | some s =>
    if s = "" then false
    else
      match parse s with
      | none => false
      | some t => decide (Int.fdiv (now - t) 86400 ≤ maxAgeDays)

/-- One WAQI measurement as built by `get_waqi_by_coordinates`
(`data_sources/waqi.py`): parameter name, value, `date.isoformat()` and
location name. -/
structure WaqiMeas where
  parameter : String
  value : ℚ
  dateIso : String
  location : String
deriving Repr, DecidableEq

/-- `get_pm25_from_waqi` (skyblue2.py): first PM2.5 entry of the WAQI
response wins; no freshness check is applied to it.  A raised exception is
caught and mapped to `"Error WAQI"`. -/
def get_pm25_from_waqi (resp : Except Unit (List WaqiMeas)) :
    Option ℚ × Option String × String :=
  match resp with
  | .error _ => (none, none, "Error WAQI")
  | .ok ms =>
    match ms.find? (fun m => m.parameter == "pm25") with
    | some m => (some m.value, some m.dateIso, "WAQI • " ++ m.location)
    | none => (none, none, "WAQI sin datos PM2.5")

/-- `location.get('name', 'Nombre Desconocido')` (skyblue2.py). -/
def locName2 (loc : Location) : String := loc.name.getD "Nombre Desconocido"

/-- One loop iteration of skyblue2's `get_pm25`: skip a station with a falsy
sensor id; a raised provider error propagates (caught by the surrounding
`try`); otherwise keep the latest reading only when `is_data_fresh` with
`max_age_days=7` accepts it. -/
def probeStation2 (sensorResp : Nat → Except Unit (List Entry))
    (parse : String → Option Int) (now : Int) (loc : Location) :
    Except Unit (Option Meas) :=
  match truthyId (get_pm25_sensor_id_from_location loc) with
  | none => .ok none
  | some sid =>
    match sensorResp sid with
    | .error e => .error e
    | .ok results =>
      match latestFromResults results with
      | (some v, some dt) =>
        if is_data_fresh parse now (some dt) 7 then
          .ok (some ⟨v, dt, "OpenAQ • " ++ locName2 loc⟩)
        else
          .ok none
      | _ => .ok none

/-- skyblue2's probe loop: accumulate fresh measurements in candidate order;
the first raised error aborts the loop (and sends `get_pm25` to fallback). -/
def probeAll2 (sensorResp : Nat → Except Unit (List Entry))
    (parse : String → Option Int) (now : Int) :
    List Location → Except Unit (List Meas)
  | [] => .ok []
  | loc :: rest =>
    match probeStation2 sensorResp parse now loc with
    | .error e => .error e
    | .ok m? =>
      match probeAll2 sensorResp parse now rest with
      | .error e => .error e
      | .ok tail =>
        .ok (match m? with | some m => m :: tail | none => tail)

/-- `get_pm25` of skyblue2.py: locate, probe every candidate (no cap),
select the accumulator entry with the maximal `dt_iso`, and fall back to
WAQI when there are no stations, no fresh measurement, or a caught error. -/
def get_pm25_v2 (locResp : Except String (List Location))
    (sensorResp : Nat → Except Unit (List Entry))
    (waqiResp : Except Unit (List WaqiMeas))
    (parse : String → Option Int) (now : Int) :
    Option ℚ × Option String × String :=
  let candidate_locations := find_locations_by_coordinates locResp
  if candidate_locations.isEmpty then
    get_pm25_from_waqi waqiResp
  else
    match probeAll2 sensorResp parse now candidate_locations with
    | .error _ => get_pm25_from_waqi waqiResp
    | .ok valid_measurements =>
      match valid_measurements with
      | [] => get_pm25_from_waqi waqiResp
      | m :: ms =>
        let most_recent := argmaxFirst (fun x => x.dtIso) m ms
        (some most_recent.value, some most_recent.dtIso, most_recent.source)

/-- Outcome of one `sensors/{id}/measurements` HTTP call in skyblue.py:
a parsed result list, an HTTP 429, or any other raised error. -/
inductive SensorResp1 where
  | ok (results : List Entry)
  | http429
  | otherError
deriving Repr, DecidableEq

/-- `DEFAULT_MAX_STATIONS_TO_QUERY` (skyblue.py). -/
def DEFAULT_MAX_STATIONS_TO_QUERY : Nat := 10

/-- `location.get('name', 'N/A')` (skyblue.py). -/
def locName1 (loc : Location) : String := loc.name.getD "N/A"

/-- One loop iteration of skyblue.py's `get_pm25`: on HTTP 429 the station
is skipped and the session flag is raised (second component); other raised
errors propagate to the outer handler; a valid `(value, dt)` pair is
accepted with NO freshness check. -/
def probeStation1 (sensorResp : Nat → SensorResp1) (loc : Location) :
    Except Unit (Option Meas × Bool) :=
  match truthyId (get_pm25_sensor_id_from_location loc) with
  | none => .ok (none, false)
  | some sid =>
    match sensorResp sid with
    | .http429 => .ok (none, true)
    | .otherError => .error ()
    | .ok results =>
      match latestFromResults results with
      | (some v, some dt) => .ok (some ⟨v, dt, "OpenAQ • " ++ locName1 loc⟩, false)
      | _ => .ok (none, false)

/-- skyblue.py's probe loop over the capped candidates, threading the
`openaq_rate_limited` flag (true when any probed station answered 429). -/
def probeAll1 (sensorResp : Nat → SensorResp1) :
    List Location → Except Unit (List Meas × Bool)
  | [] => .ok ([], false)
  | loc :: rest =>
    match probeStation1 sensorResp loc with
    | .error e => .error e
    | .ok (m?, f1) =>
      match probeAll1 sensorResp rest with
      | .error e => .error e
      | .ok (tail, f2) =>
        .ok ((match m? with | some m => m :: tail | none => tail), f1 || f2)

/-- Result of skyblue.py's `get_pm25` together with the number of aggregate
rate-limit warnings surfaced during the call (the single `st.warning`
emitted after the loop when the flag is set). -/
structure Result1 where
  pm25 : Option ℚ
  dtIso : Option String
  source : String
  rateLimitWarnings : Nat
deriving Repr, DecidableEq

/-- `get_pm25` of skyblue.py: locate, cap the candidates at
`DEFAULT_MAX_STATIONS_TO_QUERY`, probe them with 429-resilience, surface at
most one aggregate rate-limit warning, select by maximal `dt_iso`.  No
freshness filter and no WAQI fallback exist in this variant. -/
def get_pm25_v1 (locResp : Except String (List Location))
    (sensorResp : Nat → SensorResp1) : Result1 :=
  let candidate_locations := find_locations_by_coordinates locResp
  if candidate_locations.isEmpty then
    ⟨none, none, "No se encontraron estaciones", 0⟩
  else
    let limited_locations := candidate_locations.take DEFAULT_MAX_STATIONS_TO_QUERY
    match probeAll1 sensorResp limited_locations with
    | .error _ => ⟨none, none, "Error en la aplicación", 0⟩
    | .ok (valid_measurements, rateLimited) =>
      let warnings : Nat := if rateLimited then 1 else 0
      match valid_measurements with
      | [] => ⟨none, none, "Estaciones sin datos frescos", warnings⟩
      | m :: ms =>
        let most_recent := argmaxFirst (fun x => x.dtIso) m ms
        ⟨some most_recent.value, some most_recent.dtIso, most_recent.source, warnings⟩

/-! ### One-step equations for the probe loops -/

theorem probeAll2_cons (sensorResp : Nat → Except Unit (List Entry))
    (parse : String → Option Int) (now : Int) (loc : Location) (rest : List Location) :
    probeAll2 sensorResp parse now (loc :: rest)
      = match probeStation2 sensorResp parse now loc with
        | .error e => .error e
        | .ok m? =>
          match probeAll2 sensorResp parse now rest with
          | .error e => .error e
          | .ok tail =>
            .ok (match m? with | some m => m :: tail | none => tail) := rfl

theorem probeAll1_cons (sensorResp : Nat → SensorResp1)
    (loc : Location) (rest : List Location) :
    probeAll1 sensorResp (loc :: rest)
      = match probeStation1 sensorResp loc with
        | .error e => .error e
        | .ok (m?, f1) =>
          match probeAll1 sensorResp rest with
          | .error e => .error e
          | .ok (tail, f2) =>
            .ok ((match m? with | some m => m :: tail | none => tail), f1 || f2) := rfl

/-! ### Order facts about the embedded Python string comparison -/

theorem charListLt_asymm :
    ∀ u v, charListLt u v = true → charListLt v u = false := by
  intro u
  induction u with
  | nil => intro v h; cases v with
    | nil => simp [charListLt] at h
    | cons b bs => simp [charListLt]
  | cons a as ih =>
    intro v h
    cases v with
    | nil => simp [charListLt] at h
    | cons b bs =>
      simp only [charListLt] at h ⊢
      by_cases h1 : a.toNat < b.toNat
      · have h2 : ¬ b.toNat < a.toNat := by omega
        simp [h1, h2]
      · by_cases h2 : b.toNat < a.toNat
        · simp [h1, h2] at h
        · simp only [h1, h2, if_false] at h ⊢
          exact ih bs h

theorem charListLt_comp :
    ∀ u v w, charListLt u w = true →
      charListLt u v = true ∨ charListLt v w = true := by
  intro u
  induction u with
  | nil =>
    intro v w h
    cases w with
    | nil => simp [charListLt] at h
    | cons b bs =>
      cases v with
      | nil => exact Or.inr h
      | cons c cs => exact Or.inl (by simp [charListLt])
  | cons a as ih =>
    intro v w h
    cases w with
    | nil => simp [charListLt] at h
    | cons b bs =>
      cases v with
      | nil => exact Or.inr (by simp [charListLt])
      | cons c cs =>
        simp only [charListLt] at h ⊢
        by_cases hac : a.toNat < c.toNat
        · exact Or.inl (by simp [hac])
        · by_cases hca : c.toNat < a.toNat
          · refine Or.inr ?_
            by_cases hab : a.toNat < b.toNat
            · have : c.toNat < b.toNat := by omega
              simp [this]
            · by_cases hba : b.toNat < a.toNat
              · simp [hab, hba] at h
              · have : c.toNat < b.toNat := by omega
                simp [this]
          · by_cases hab : a.toNat < b.toNat
            · have hcb : c.toNat < b.toNat := by omega
              exact Or.inr (by simp [hcb])
            · by_cases hba : b.toNat < a.toNat
              · simp [hab, hba] at h
              · simp only [hab, hba, if_false] at h
                have hcb1 : ¬ c.toNat < b.toNat := by omega
                have hcb2 : ¬ b.toNat < c.toNat := by omega
                rcases ih cs bs h with h1 | h1
                · exact Or.inl (by simp [hac, hca, h1])
                · exact Or.inr (by simp [hcb1, hcb2, h1])

theorem pyStrLe_total (s t : String) : pyStrLe s t = true ∨ pyStrLe t s = true := by
  unfold pyStrLe
  by_cases h : pyStrLt t s = true
  · right
    have := charListLt_asymm t.data s.data h
    simp [pyStrLt] at h ⊢
    exact this
  · left
    simp [h]

theorem pyStrLe_trans {a b c : String}
    (h1 : pyStrLe a b = true) (h2 : pyStrLe b c = true) : pyStrLe a c = true := by
  unfold pyStrLe at h1 h2 ⊢
  simp only [Bool.not_eq_true', Bool.not_eq_true] at h1 h2 ⊢
  by_contra hc
  have hca : charListLt c.data a.data = true := by
    cases h : pyStrLt c a
    · exact absurd h hc
    · simpa [pyStrLt] using h
  rcases charListLt_comp c.data b.data a.data hca with h3 | h3
  · have : pyStrLt c b = true := by simpa [pyStrLt] using h3
    rw [h2] at this; cases this
  · have : pyStrLt b a = true := by simpa [pyStrLt] using h3
    rw [h1] at this; cases this

theorem pyStrLe_of_lt {s t : String} (h : pyStrLt s t = true) : pyStrLe s t = true := by
  unfold pyStrLe
  have := charListLt_asymm s.data t.data (by simpa [pyStrLt] using h)
  simp [pyStrLt, this]

theorem pyStrLe_refl (s : String) : pyStrLe s s = true := by
  rcases pyStrLe_total s s with h | h <;> exact h

theorem charListLt_eq_of_not_lt :
    ∀ u v, charListLt u v = false → charListLt v u = false → u = v := by
  intro u
  induction u with
  | nil =>
    intro v h1 h2
    cases v with
    | nil => rfl
    | cons b bs => simp [charListLt] at h1
  | cons a as ih =>
    intro v h1 h2
    cases v with
    | nil => simp [charListLt] at h2
    | cons b bs =>
      simp only [charListLt] at h1 h2
      by_cases hab : a.toNat < b.toNat
      · simp [hab] at h1
      · by_cases hba : b.toNat < a.toNat
        · simp [hab, hba] at h2
        · simp only [hab, hba, if_false] at h1 h2
          have hval : a = b := Char.ext (UInt32.ext (by unfold Char.toNat at hab hba; omega))
          rw [hval, ih bs h1 h2]

theorem pyStrLe_antisymm {s t : String}
    (h1 : pyStrLe s t = true) (h2 : pyStrLe t s = true) : s = t := by
  unfold pyStrLe pyStrLt at h1 h2
  simp only [Bool.not_eq_true'] at h1 h2
  exact String.ext (charListLt_eq_of_not_lt s.data t.data h2 h1)

/-! ### Facts about `argmaxFirst` -/

theorem argmaxFirst_mem {α : Type} (key : α → String) (x : α) (xs : List α) :
    argmaxFirst key x xs ∈ x :: xs := by
  induction xs generalizing x with
  | nil => simp [argmaxFirst]
  | cons y ys ih =>
    have h := ih (if pyStrLt (key x) (key y) then y else x)
    simp only [argmaxFirst, List.foldl_cons] at h ⊢
    by_cases c : pyStrLt (key x) (key y) = true
    · rw [if_pos c] at h ⊢
      exact List.mem_cons_of_mem x h
    · rw [if_neg c] at h ⊢
      rcases List.mem_cons.mp h with h1 | h1
      · rw [h1]; exact List.mem_cons_self _ _
      · exact List.mem_cons_of_mem x (List.mem_cons_of_mem y h1)

theorem argmaxFirst_ge {α : Type} (key : α → String) (x : α) (xs : List α) :
    ∀ y ∈ x :: xs, pyStrLe (key y) (key (argmaxFirst key x xs)) = true := by
  induction xs generalizing x with
  | nil =>
    intro y hy
    rcases List.mem_cons.mp hy with h | h
    · rw [h]; simp only [argmaxFirst, List.foldl_nil]; exact pyStrLe_refl _
    · cases h
  | cons z zs ih =>
    intro y hy
    have step : argmaxFirst key x (z :: zs)
        = argmaxFirst key (if pyStrLt (key x) (key z) then z else x) zs := rfl
    rw [step]
    have hw : ∀ w ∈ (if pyStrLt (key x) (key z) then z else x) :: zs,
        pyStrLe (key w) (key (argmaxFirst key (if pyStrLt (key x) (key z) then z else x) zs)) = true :=
      ih _
    have hxle : pyStrLe (key x) (key (if pyStrLt (key x) (key z) then z else x)) = true := by
      by_cases c : pyStrLt (key x) (key z) = true
      · rw [if_pos c]; exact pyStrLe_of_lt c
      · rw [if_neg c]; exact pyStrLe_refl _
    have hzle : pyStrLe (key z) (key (if pyStrLt (key x) (key z) then z else x)) = true := by
      by_cases c : pyStrLt (key x) (key z) = true
      · rw [if_pos c]; exact pyStrLe_refl _
      · rw [if_neg c]
        have c0 : pyStrLt (key x) (key z) = false := by
          cases h0 : pyStrLt (key x) (key z)
          · rfl
          · exact absurd h0 c
        unfold pyStrLe
        rw [c0]
        rfl
    have hhead : (if pyStrLt (key x) (key z) then z else x)
        ∈ (if pyStrLt (key x) (key z) then z else x) :: zs := List.mem_cons_self _ _
    rcases List.mem_cons.mp hy with h1 | h1
    · rw [h1]
      exact pyStrLe_trans hxle (hw _ hhead)
    · rcases List.mem_cons.mp h1 with h2 | h2
      · rw [h2]
        exact pyStrLe_trans hzle (hw _ hhead)
      · exact hw y (List.mem_cons_of_mem _ h2)

theorem argmaxFirst_perm {α : Type} (key : α → String) (x : α) (xs : List α)
    (y : α) (ys : List α)
    (hperm : (x :: xs).Perm (y :: ys))
    (hdist : (x :: xs).Pairwise (fun a b => key a ≠ key b)) :
    argmaxFirst key x xs = argmaxFirst key y ys := by
  have m1 := argmaxFirst_mem key x xs
  have m2 := argmaxFirst_mem key y ys
  have m2x : argmaxFirst key y ys ∈ x :: xs := hperm.mem_iff.mpr m2
  have m1y : argmaxFirst key x xs ∈ y :: ys := hperm.mem_iff.mp m1
  have le1 := argmaxFirst_ge key x xs _ m2x
  have le2 := argmaxFirst_ge key y ys _ m1y
  have keq : key (argmaxFirst key x xs) = key (argmaxFirst key y ys) :=
    pyStrLe_antisymm le2 le1
  by_contra hne
  have hsymm : Symmetric (fun a b : α => key a ≠ key b) := by
    intro a b h hba
    exact h hba.symm
  exact hdist.forall hsymm m1 m2x (fun h => hne h) keq

/-! ### Stability of the locator's sort -/

theorem filter_insertionSort_dist (d : Option Nat) :
    ∀ l : List Location,
      (List.insertionSort locDistLe l).filter (fun x => x.distance == d) =
        l.filter (fun x => x.distance == d) := by
  intro l
  induction l with
  | nil => simp
  | cons b l ih =>
    rw [List.insertionSort_cons_eq_take_drop]
    set s := List.insertionSort locDistLe l with hs
    set P : Location → Bool := fun x => x.distance == d with hP
    have hsplit : List.takeWhile (fun c => decide ¬locDistLe b c) s ++
        List.dropWhile (fun c => decide ¬locDistLe b c) s = s :=
      List.takeWhile_append_dropWhile _ _
    rw [List.filter_append, List.filter_cons]
    by_cases hb : P b = true
    · have hbd : b.distance = d := by
        have := hb
        rw [hP] at this
        exact eq_of_beq this
      have htake : (List.takeWhile (fun c => decide ¬locDistLe b c) s).filter P = [] := by
        rw [List.filter_eq_nil_iff]
        intro a ha
        have hnle : ¬ locDistLe b a := by
          have := List.mem_takeWhile_imp ha
          simpa using this
        rw [hP]
        simp only [beq_iff_eq]
        intro had
        apply hnle
        unfold locDistLe distLe
        rw [hbd, had]
        cases d with
        | none => simp
        | some n => simp
      rw [if_pos hb, htake, List.nil_append]
      have hrest : (List.dropWhile (fun c => decide ¬locDistLe b c) s).filter P
          = s.filter P := by
        conv_rhs => rw [← hsplit]
        rw [List.filter_append, htake, List.nil_append]
      rw [hrest, hs, ih, List.filter_cons, if_pos hb]
    · rw [if_neg hb]
      have : (List.takeWhile (fun c => decide ¬locDistLe b c) s).filter P ++
          (List.dropWhile (fun c => decide ¬locDistLe b c) s).filter P = s.filter P := by
        rw [← List.filter_append, hsplit]
      rw [this, hs, ih, List.filter_cons, if_neg hb]

/-! ### The freshness guard of skyblue2's probe loop -/

theorem probeStation2_fresh (sensorResp : Nat → Except Unit (List Entry))
    (parse : String → Option Int) (now : Int) (loc : Location) (m : Meas)
    (h : probeStation2 sensorResp parse now loc = .ok (some m)) :
    is_data_fresh parse now (some m.dtIso) 7 = true := by
  unfold probeStation2 at h
  cases hid : truthyId (get_pm25_sensor_id_from_location loc) with
  | none => rw [hid] at h; cases h
  | some sid =>
    rw [hid] at h
    dsimp only at h
    cases hresp : sensorResp sid with
    | error e => rw [hresp] at h; cases h
    | ok results =>
      rw [hresp] at h
      dsimp only at h
      cases hl : latestFromResults results with
      | mk v? dt? =>
        rw [hl] at h
        cases v? with
        | none => simp at h
        | some v =>
          cases dt? with
          | none => simp at h
          | some dt =>
            simp only at h
            by_cases hf : is_data_fresh parse now (some dt) 7 = true
            · rw [if_pos hf] at h
              cases h
              exact hf
            · rw [if_neg hf] at h
              cases h

theorem probeAll2_fresh (sensorResp : Nat → Except Unit (List Entry))
    (parse : String → Option Int) (now : Int) :
    ∀ (locs : List Location) (valid : List Meas),
      probeAll2 sensorResp parse now locs = .ok valid →
      ∀ m ∈ valid, is_data_fresh parse now (some m.dtIso) 7 = true := by
  intro locs
  induction locs with
  | nil =>
    intro valid h m hm
    unfold probeAll2 at h
    cases h
    cases hm
  | cons loc rest ih =>
    intro valid h m hm
    unfold probeAll2 at h
    cases hps : probeStation2 sensorResp parse now loc with
    | error e => rw [hps] at h; cases h
    | ok m? =>
      rw [hps] at h
      cases hrest : probeAll2 sensorResp parse now rest with
      | error e => rw [hrest] at h; cases h
      | ok tail =>
        rw [hrest] at h
        cases m? with
        | none =>
          cases h
          exact ih tail hrest m hm
        | some m0 =>
          cases h
          rcases List.mem_cons.mp hm with h1 | h1
          · rw [h1]
            exact probeStation2_fresh sensorResp parse now loc m0 hps
          · exact ih tail hrest m h1

/-! ### Concrete fixtures for counterexamples and witnesses -/

/-- A parse function for concrete runs: `"t0"` parses to epoch second 0,
everything else is malformed. -/
def parseT0 : String → Option Int := fun s => if s = "t0" then some 0 else none

/-- A parse function for concrete runs with ISO-looking timestamps: maps
the fixture strings to distinct epoch seconds, everything else is
malformed.  Used with `now = 86400`. -/
def parseT0Iso : String → Option Int := fun s =>
  if s = "2024-01-01T01:00:00Z" then some 3600
  else if s = "2024-01-01T02:00:00Z" then some 7200
  else if s = "2024-01-01T03:00:00Z" then some 10800
  else if s = "2024-01-01T12:00:00Z" then some 43200
  else if s = "1990-01-01T00:00:00Z" then some (-1000000000)
  else if s = "t0" then some 0
  else none

/-! ### Claims -/

/-- Claim C3, counterexample: with day-floor semantics a reading exactly
7 days and 1 second old still counts as fresh at `max_age_days = 7`
(`timedelta(days=7, seconds=1).days = 7 ≤ 7`), contradicting the claimed
`false` at that boundary input. -/
theorem C3_counterexample :
    is_data_fresh parseT0 (7 * 86400 + 1) (some "t0") 7 = true := by decide

/-- Claim C3 as amended: `is_data_fresh` implements day-floor semantics:
for a parseable timestamp it returns true iff
`floor((now - t) / 86400) ≤ maxAgeDays`; at `maxAgeDays = 7` it is true at
an age of exactly 7 days, still true at 7 days and 1 second, and first
becomes false at 8 days. -/
theorem C3_amended_day_floor (parse : String → Option Int) (now t : Int) (s : String)
    (hs : s ≠ "") (hp : parse s = some t) :
    (is_data_fresh parse now (some s) 7 = true ↔ Int.fdiv (now - t) 86400 ≤ 7) ∧
    (now - t = 7 * 86400 → is_data_fresh parse now (some s) 7 = true) ∧
    (now - t = 7 * 86400 + 1 → is_data_fresh parse now (some s) 7 = true) ∧
    (now - t = 8 * 86400 → is_data_fresh parse now (some s) 7 = false) := by
  have hdef : is_data_fresh parse now (some s) 7
      = decide (Int.fdiv (now - t) 86400 ≤ 7) := by
    unfold is_data_fresh
    dsimp only
    rw [if_neg hs, hp]
  refine ⟨?_, ?_, ?_, ?_⟩
  · rw [hdef]; simp
  · intro h; rw [hdef, h]; decide
  · intro h; rw [hdef, h]; decide
  · intro h; rw [hdef, h]; decide

/-- Witness for the amended C3: concrete boundary evaluation at age 8 days. -/
theorem C3_amended_witness :
    is_data_fresh parseT0 (8 * 86400) (some "t0") 7 = false :=
  (C3_amended_day_floor parseT0 (8 * 86400) 0 "t0" (by decide) (by decide)).2.2.2 (by decide)

/-- Claim C9: a malformed (unparseable) timestamp fails closed:
`is_data_fresh` returns false on it, the affected station contributes
nothing (`probeStation2` yields `ok none`, never an error), and the probe
loop behaves as if the station were absent, so the call is not aborted. -/
theorem C9_malformed_timestamp_fails_closed
    (parse : String → Option Int) (now maxAge : Int) (s : String)
    (hp : parse s = none) :
    is_data_fresh parse now (some s) maxAge = false ∧
    (∀ (sensorResp : Nat → Except Unit (List Entry)) (loc : Location) (sid : Nat)
        (results : List Entry) (v : ℚ),
      truthyId (get_pm25_sensor_id_from_location loc) = some sid →
      sensorResp sid = Except.ok results →
      latestFromResults results = (some v, some s) →
      probeStation2 sensorResp parse now loc = Except.ok none) ∧
    (∀ (sensorResp : Nat → Except Unit (List Entry)) (loc : Location) (sid : Nat)
        (results : List Entry) (v : ℚ) (rest : List Location),
      truthyId (get_pm25_sensor_id_from_location loc) = some sid →
      sensorResp sid = Except.ok results →
      latestFromResults results = (some v, some s) →
      probeAll2 sensorResp parse now (loc :: rest)
        = probeAll2 sensorResp parse now rest) := by
  have hfresh : ∀ age : Int, is_data_fresh parse now (some s) age = false := by
    intro age
    unfold is_data_fresh
    dsimp only
    by_cases hse : s = ""
    · rw [if_pos hse]
    · rw [if_neg hse, hp]
  have hstation : ∀ (sensorResp : Nat → Except Unit (List Entry)) (loc : Location)
      (sid : Nat) (results : List Entry) (v : ℚ),
      truthyId (get_pm25_sensor_id_from_location loc) = some sid →
      sensorResp sid = Except.ok results →
      latestFromResults results = (some v, some s) →
      probeStation2 sensorResp parse now loc = Except.ok none := by
    intro sensorResp loc sid results v hid hresp hl
    unfold probeStation2
    rw [hid]
    dsimp only
    rw [hresp]
    dsimp only
    rw [hl]
    dsimp only
    rw [if_neg (by rw [hfresh 7]; exact Bool.false_ne_true)]
  refine ⟨hfresh maxAge, hstation, ?_⟩
  intro sensorResp loc sid results v rest hid hresp hl
  rw [probeAll2_cons, hstation sensorResp loc sid results v hid hresp hl]
  dsimp only
  cases hrest : probeAll2 sensorResp parse now rest <;> rfl

/-- Witness for C9: a concrete station whose only reading carries the
malformed timestamp `"bad"` contributes nothing and raises no error. -/
theorem C9_witness :
    is_data_fresh parseT0 0 (some "bad") 7 = false ∧
    probeStation2 (fun _ => Except.ok [⟨some 3, some "bad"⟩]) parseT0 0
        ⟨some "S", some 1000, [⟨some "pm25", some 5⟩]⟩
      = Except.ok none := by
  have h := C9_malformed_timestamp_fails_closed parseT0 0 7 "bad" (by decide)
  exact ⟨h.1, h.2.1 (fun _ => Except.ok [⟨some 3, some "bad"⟩])
    ⟨some "S", some 1000, [⟨some "pm25", some 5⟩]⟩ 5 [⟨some 3, some "bad"⟩] 3
    (by decide) rfl (by decide)⟩

/-- Claim C10: the WAQI fallback bypasses the freshness filter: the first
PM2.5 entry of the WAQI response is returned with its timestamp and the
`WAQI` source label even when that reading fails `is_data_fresh` (is
arbitrarily older than 7 days), both directly and through the
no-stations path of skyblue2's `get_pm25`. -/
theorem C10_fallback_bypasses_freshness
    (waqiResp : Except Unit (List WaqiMeas)) (ms : List WaqiMeas) (m : WaqiMeas)
    (parse : String → Option Int) (now : Int)
    (hok : waqiResp = Except.ok ms)
    (hfind : ms.find? (fun x => x.parameter == "pm25") = some m)
    (_hstale : is_data_fresh parse now (some m.dateIso) 7 = false) :
    get_pm25_from_waqi waqiResp = (some m.value, some m.dateIso, "WAQI • " ++ m.location) ∧
    (∀ (locResp : Except String (List Location))
        (sensorResp : Nat → Except Unit (List Entry)),
      find_locations_by_coordinates locResp = [] →
      get_pm25_v2 locResp sensorResp waqiResp parse now
        = (some m.value, some m.dateIso, "WAQI • " ++ m.location)) := by
  have h1 : get_pm25_from_waqi waqiResp
      = (some m.value, some m.dateIso, "WAQI • " ++ m.location) := by
    unfold get_pm25_from_waqi
    rw [hok]
    dsimp only
    rw [hfind]
  refine ⟨h1, ?_⟩
  intro locResp sensorResp hempty
  unfold get_pm25_v2
  rw [hempty]
  dsimp only [List.isEmpty_nil]
  rw [if_pos rfl]
  exact h1

/-- Witness for C10: a WAQI reading parsed to epoch 0, thirty days before
`now`, is returned by the fallback unchanged. -/
theorem C10_witness :
    get_pm25_v2 (Except.ok []) (fun _ => Except.ok [])
        (Except.ok [⟨"pm25", 55, "t0", "Guayaquil"⟩]) parseT0 (30 * 86400)
      = (some 55, some "t0", "WAQI • Guayaquil") :=
  (C10_fallback_bypasses_freshness
    (Except.ok [⟨"pm25", 55, "t0", "Guayaquil"⟩])
    [⟨"pm25", 55, "t0", "Guayaquil"⟩] ⟨"pm25", 55, "t0", "Guayaquil"⟩
    parseT0 (30 * 86400) rfl (by decide) (by decide)).2
    (Except.ok []) (fun _ => Except.ok []) (by decide)

/-- Claim C7: on a successful provider response the locator keeps exactly
the PM2.5-capable locations, returns them sorted by non-decreasing
provider-reported distance, breaks distance ties by response order (for
every distance key the tied entries appear exactly as in the filtered
response — the stable-sort characterisation), and an empty successful
response yields the empty sequence, not an error. -/
theorem C7_locator_sorted_stable (locs : List Location) :
    List.Sorted locDistLe (find_locations_by_coordinates (Except.ok locs)) ∧
    (find_locations_by_coordinates (Except.ok locs)).Perm (locs.filter hasPm25Sensor) ∧
    (∀ l ∈ find_locations_by_coordinates (Except.ok locs), hasPm25Sensor l = true) ∧
    (∀ d : Option Nat,
      (find_locations_by_coordinates (Except.ok locs)).filter (fun x => x.distance == d) =
        (locs.filter hasPm25Sensor).filter (fun x => x.distance == d)) ∧
    find_locations_by_coordinates (Except.ok []) = [] := by
  have hdef : find_locations_by_coordinates (Except.ok locs)
      = List.insertionSort locDistLe (locs.filter hasPm25Sensor) := rfl
  refine ⟨?_, ?_, ?_, ?_, rfl⟩
  · rw [hdef]
    exact List.sorted_insertionSort locDistLe _
  · rw [hdef]
    exact List.perm_insertionSort locDistLe _
  · intro l hl
    rw [hdef] at hl
    have hmem : l ∈ locs.filter hasPm25Sensor :=
      (List.perm_insertionSort locDistLe (locs.filter hasPm25Sensor)).mem_iff.mp hl
    exact List.of_mem_filter hmem
  · intro d
    rw [hdef]
    exact filter_insertionSort_dist d _

/-- Witness for C7: a concrete response with two PM2.5 stations out of
order and one PM2.5-less station is filtered and sorted by distance. -/
theorem C7_witness :
    hasPm25Sensor ⟨some "A", some 3000, [⟨some "pm25", some 1⟩]⟩ = true ∧
    (find_locations_by_coordinates (Except.ok
        [⟨some "B", some 12000, [⟨some "pm25", some 2⟩]⟩,
         ⟨some "noPM", some 100, [⟨some "o3", some 9⟩]⟩,
         ⟨some "A", some 3000, [⟨some "pm25", some 1⟩]⟩])).filter
        (fun x => x.distance == some 3000) =
      ([(⟨some "B", some 12000, [⟨some "pm25", some 2⟩]⟩ : Location),
        ⟨some "noPM", some 100, [⟨some "o3", some 9⟩]⟩,
        ⟨some "A", some 3000, [⟨some "pm25", some 1⟩]⟩].filter hasPm25Sensor).filter
        (fun x => x.distance == some 3000) := by
  refine ⟨?_, ?_⟩
  · exact (C7_locator_sorted_stable
      [⟨some "B", some 12000, [⟨some "pm25", some 2⟩]⟩,
       ⟨some "noPM", some 100, [⟨some "o3", some 9⟩]⟩,
       ⟨some "A", some 3000, [⟨some "pm25", some 1⟩]⟩]).2.2.1
      ⟨some "A", some 3000, [⟨some "pm25", some 1⟩]⟩ (by decide)
  · exact (C7_locator_sorted_stable
      [⟨some "B", some 12000, [⟨some "pm25", some 2⟩]⟩,
       ⟨some "noPM", some 100, [⟨some "o3", some 9⟩]⟩,
       ⟨some "A", some 3000, [⟨some "pm25", some 1⟩]⟩]).2.2.2.1 (some 3000)

/-- Claim C8: among entries with a usable end-of-period UTC timestamp the
latest-reading selection returns the entry with the maximal timestamp and
its value; with no usable timestamp it returns `(none, none)`, not an
error; and under distinct timestamps the outcome is independent of the
order in which the provider listed the entries. -/
theorem C8_latest_is_max_timestamp (results : List Entry) :
    (results.filter entryHasDt = [] → latestFromResults results = (none, none)) ∧
    (∀ e es, results.filter entryHasDt = e :: es →
      ∃ latest ∈ results.filter entryHasDt,
        (∀ r ∈ results.filter entryHasDt,
          pyStrLe (r.dtUtc.getD "") (latest.dtUtc.getD "") = true) ∧
        latestFromResults results =
          (match latest.value with
           | some v => (some v, latest.dtUtc)
           | none => (none, none))) ∧
    (∀ results2 : List Entry, results.Perm results2 →
      (results.filter entryHasDt).Pairwise
        (fun a b => a.dtUtc.getD "" ≠ b.dtUtc.getD "") →
      latestFromResults results = latestFromResults results2) := by
  refine ⟨?_, ?_, ?_⟩
  · intro h
    unfold latestFromResults
    rw [h]
  · intro e es h
    refine ⟨argmaxFirst (fun r => r.dtUtc.getD "") e es, ?_, ?_, ?_⟩
    · rw [h]
      exact argmaxFirst_mem _ _ _
    · rw [h]
      exact argmaxFirst_ge _ _ _
    · unfold latestFromResults
      rw [h]
  · intro results2 hperm hdist
    have hpf : (results.filter entryHasDt).Perm (results2.filter entryHasDt) :=
      hperm.filter entryHasDt
    unfold latestFromResults
    cases h1 : results.filter entryHasDt with
    | nil =>
      rw [h1] at hpf
      rw [hpf.nil_eq.symm]
    | cons e es =>
      rw [h1] at hpf hdist
      cases h2 : results2.filter entryHasDt with
      | nil =>
        rw [h2] at hpf
        exact absurd hpf.symm.nil_eq (by simp)
      | cons f fs =>
        rw [h2] at hpf
        have heq : argmaxFirst (fun r => r.dtUtc.getD "") e es
            = argmaxFirst (fun r => r.dtUtc.getD "") f fs :=
          argmaxFirst_perm _ e es f fs hpf hdist
        dsimp only
        rw [heq]

/-- Witness for C8: two permutations of the same three entries (one of
them timestampless) select the same maximal reading. -/
theorem C8_witness :
    latestFromResults
        [⟨some 5, some "2024-01-01T00:00:00Z"⟩, ⟨some 6, none⟩,
         ⟨some 7, some "2024-01-02T00:00:00Z"⟩]
      = latestFromResults
        [⟨some 7, some "2024-01-02T00:00:00Z"⟩, ⟨some 6, none⟩,
         ⟨some 5, some "2024-01-01T00:00:00Z"⟩] :=
  (C8_latest_is_max_timestamp
      [⟨some 5, some "2024-01-01T00:00:00Z"⟩, ⟨some 6, none⟩,
       ⟨some 7, some "2024-01-02T00:00:00Z"⟩]).2.2
    [⟨some 7, some "2024-01-02T00:00:00Z"⟩, ⟨some 6, none⟩,
     ⟨some 5, some "2024-01-01T00:00:00Z"⟩]
    (by decide) (by decide)

/-- Claim C1: whenever skyblue2's probe loop produced a non-empty
accumulator of fresh measurements, `get_pm25` returns the accumulator
entry with the maximal `observedAtUtc` (`dt_iso`) across all probed
stations, with that entry's value and source label; distance plays no role
in the selection. -/
theorem C1_global_recency
    (locResp : Except String (List Location))
    (sensorResp : Nat → Except Unit (List Entry))
    (waqiResp : Except Unit (List WaqiMeas))
    (parse : String → Option Int) (now : Int)
    (v : Meas) (vs : List Meas)
    (hne : (find_locations_by_coordinates locResp).isEmpty = false)
    (hprobe : probeAll2 sensorResp parse now (find_locations_by_coordinates locResp)
        = Except.ok (v :: vs)) :
    ∃ m ∈ v :: vs,
      (∀ x ∈ v :: vs, pyStrLe x.dtIso m.dtIso = true) ∧
      get_pm25_v2 locResp sensorResp waqiResp parse now
        = (some m.value, some m.dtIso, m.source) := by
  refine ⟨argmaxFirst (fun x => x.dtIso) v vs,
    argmaxFirst_mem _ _ _, argmaxFirst_ge _ _ _, ?_⟩
  simp only [get_pm25_v2, hne, Bool.false_eq_true, if_false, hprobe]

/-- Witness for C1 (the spec's P3 scenario): three stations at distances
1km, 2km, 3km with fresh readings timestamped T1 < T2 < T3; the farthest
station's reading (T3) is returned. -/
theorem C1_witness :
    ∃ m ∈ [Meas.mk 31 "2024-01-01T01:00:00Z" "OpenAQ • Near",
           Meas.mk 32 "2024-01-01T02:00:00Z" "OpenAQ • Mid",
           Meas.mk 33 "2024-01-01T03:00:00Z" "OpenAQ • Far"],
      (∀ x ∈ [Meas.mk 31 "2024-01-01T01:00:00Z" "OpenAQ • Near",
              Meas.mk 32 "2024-01-01T02:00:00Z" "OpenAQ • Mid",
              Meas.mk 33 "2024-01-01T03:00:00Z" "OpenAQ • Far"],
        pyStrLe x.dtIso m.dtIso = true) ∧
      get_pm25_v2
        (Except.ok [⟨some "Near", some 1000, [⟨some "pm25", some 1⟩]⟩,
                    ⟨some "Mid", some 2000, [⟨some "pm25", some 2⟩]⟩,
                    ⟨some "Far", some 3000, [⟨some "pm25", some 3⟩]⟩])
        (fun sid =>
          if sid = 1 then Except.ok [⟨some 31, some "2024-01-01T01:00:00Z"⟩]
          else if sid = 2 then Except.ok [⟨some 32, some "2024-01-01T02:00:00Z"⟩]
          else Except.ok [⟨some 33, some "2024-01-01T03:00:00Z"⟩])
        (Except.ok []) parseT0Iso 86400
        = (some m.value, some m.dtIso, m.source) :=
  C1_global_recency
    (Except.ok [⟨some "Near", some 1000, [⟨some "pm25", some 1⟩]⟩,
                ⟨some "Mid", some 2000, [⟨some "pm25", some 2⟩]⟩,
                ⟨some "Far", some 3000, [⟨some "pm25", some 3⟩]⟩])
    (fun sid =>
      if sid = 1 then Except.ok [⟨some 31, some "2024-01-01T01:00:00Z"⟩]
      else if sid = 2 then Except.ok [⟨some 32, some "2024-01-01T02:00:00Z"⟩]
      else Except.ok [⟨some 33, some "2024-01-01T03:00:00Z"⟩])
    (Except.ok []) parseT0Iso 86400
    (Meas.mk 31 "2024-01-01T01:00:00Z" "OpenAQ • Near")
    [Meas.mk 32 "2024-01-01T02:00:00Z" "OpenAQ • Mid",
     Meas.mk 33 "2024-01-01T03:00:00Z" "OpenAQ • Far"]
    (by decide) (by decide)

/-- Claim C4, counterexample: the skyblue.py variant of `get_pm25` (cited
by the claim) applies no freshness filter: a station whose only reading is
30 days old (so `is_data_fresh` at 7 days rejects it) still has its value
returned as the resolved measurement. -/
theorem C4_counterexample :
    is_data_fresh parseT0 (30 * 86400) (some "t0") 7 = false ∧
    get_pm25_v1 (Except.ok [⟨some "S", some 1000, [⟨some "pm25", some 1⟩]⟩])
        (fun _ => SensorResp1.ok [⟨some 50, some "t0"⟩])
      = ⟨some 50, some "t0", "OpenAQ • S", 0⟩ := by decide

/-- Claim C4 as amended: in the skyblue2 variant every accumulator entry
passed `is_data_fresh` with `max_age_days = 7`, and an empty accumulator
sends the call to the WAQI fallback path; the skyblue.py variant has no
freshness check at all (see the counterexample). -/
theorem C4_amended_freshness_guard
    (sensorResp : Nat → Except Unit (List Entry))
    (parse : String → Option Int) (now : Int) :
    (∀ (locs : List Location) (valid : List Meas),
      probeAll2 sensorResp parse now locs = Except.ok valid →
      ∀ m ∈ valid, is_data_fresh parse now (some m.dtIso) 7 = true) ∧
    (∀ (locResp : Except String (List Location)) (waqiResp : Except Unit (List WaqiMeas)),
      probeAll2 sensorResp parse now (find_locations_by_coordinates locResp)
        = Except.ok [] →
      get_pm25_v2 locResp sensorResp waqiResp parse now
        = get_pm25_from_waqi waqiResp) := by
  refine ⟨probeAll2_fresh sensorResp parse now, ?_⟩
  intro locResp waqiResp hprobe
  unfold get_pm25_v2
  cases hne : (find_locations_by_coordinates locResp).isEmpty with
  | true => rw [if_pos hne]
  | false =>
    rw [if_neg (by rw [hne]; exact Bool.false_ne_true)]
    rw [hprobe]

/-- Witness for the amended C4: a run with one fresh and one stale station
keeps only the fresh entry, and a run whose single station is stale has an
empty accumulator and returns the WAQI result. -/
theorem C4_amended_witness :
    (∀ m ∈ [Meas.mk 20 "2024-01-01T12:00:00Z" "OpenAQ • F"],
      is_data_fresh parseT0Iso 86400 (some m.dtIso) 7 = true) ∧
    get_pm25_v2 (Except.ok [⟨some "S", some 1000, [⟨some "pm25", some 1⟩]⟩])
        (fun _ => Except.ok [⟨some 50, some "1990-01-01T00:00:00Z"⟩])
        (Except.ok [⟨"pm25", 9, "t0", "WQ"⟩]) parseT0Iso 86400
      = get_pm25_from_waqi (Except.ok [⟨"pm25", 9, "t0", "WQ"⟩]) := by
  have h := C4_amended_freshness_guard
    (fun _ => Except.ok [⟨some 50, some "1990-01-01T00:00:00Z"⟩]) parseT0Iso 86400
  refine ⟨?_, ?_⟩
  · exact (C4_amended_freshness_guard
      (fun sid => if sid = 1 then Except.ok [⟨some 20, some "2024-01-01T12:00:00Z"⟩]
                  else Except.ok [⟨some 50, some "1990-01-01T00:00:00Z"⟩])
      parseT0Iso 86400).1
      [⟨some "F", some 1000, [⟨some "pm25", some 1⟩]⟩,
       ⟨some "S", some 2000, [⟨some "pm25", some 2⟩]⟩]
      [Meas.mk 20 "2024-01-01T12:00:00Z" "OpenAQ • F"] (by decide)
  · exact h.2 (Except.ok [⟨some "S", some 1000, [⟨some "pm25", some 1⟩]⟩])
      (Except.ok [⟨"pm25", 9, "t0", "WQ"⟩]) (by decide)

/-- Claim C2, counterexample: skyblue2's fallback does not distinguish the
claimed `NoFreshData` and `NoStations` outcomes.  A run whose only station
holds a stale reading (stations existed) and a run with no stations at all
both end, when WAQI has no PM2.5 data, in the identical outcome
`(none, none, "WAQI sin datos PM2.5")`. -/
theorem C2_counterexample :
    get_pm25_v2 (Except.ok [⟨some "S", some 1000, [⟨some "pm25", some 1⟩]⟩])
        (fun _ => Except.ok [⟨some 5, some "t0"⟩]) (Except.ok []) parseT0 (30 * 86400)
      = get_pm25_v2 (Except.ok []) (fun _ => Except.ok [⟨some 5, some "t0"⟩])
          (Except.ok []) parseT0 (30 * 86400) ∧
    get_pm25_v2 (Except.ok []) (fun _ => Except.ok [⟨some 5, some "t0"⟩])
        (Except.ok []) parseT0 (30 * 86400)
      = (none, none, "WAQI sin datos PM2.5") ∧
    find_locations_by_coordinates
        (Except.ok [⟨some "S", some 1000, [⟨some "pm25", some 1⟩]⟩]) ≠ [] := by decide

/-- Claim C2 as amended: in skyblue2, whenever the primary path is
exhausted — no stations, a caught provider error, or zero valid
measurements — `get_pm25` returns exactly the WAQI fallback result: a
PM2.5 entry yields `(value, timestamp, "WAQI • <location>")`, and no
PM2.5 data yields the single undifferentiated outcome
`(none, none, "WAQI sin datos PM2.5")` regardless of whether stations
existed.  (The skyblue.py variant never queries WAQI from `get_pm25`.) -/
theorem C2_amended_fallback
    (locResp : Except String (List Location))
    (sensorResp : Nat → Except Unit (List Entry))
    (waqiResp : Except Unit (List WaqiMeas))
    (parse : String → Option Int) (now : Int)
    (hfb : (find_locations_by_coordinates locResp).isEmpty = true
        ∨ (∃ e, probeAll2 sensorResp parse now (find_locations_by_coordinates locResp)
              = Except.error e)
        ∨ probeAll2 sensorResp parse now (find_locations_by_coordinates locResp)
            = Except.ok []) :
    get_pm25_v2 locResp sensorResp waqiResp parse now = get_pm25_from_waqi waqiResp ∧
    (∀ ms m, waqiResp = Except.ok ms →
      ms.find? (fun x => x.parameter == "pm25") = some m →
      get_pm25_v2 locResp sensorResp waqiResp parse now
        = (some m.value, some m.dateIso, "WAQI • " ++ m.location)) ∧
    (∀ ms, waqiResp = Except.ok ms →
      ms.find? (fun x => x.parameter == "pm25") = none →
      get_pm25_v2 locResp sensorResp waqiResp parse now
        = (none, none, "WAQI sin datos PM2.5")) := by
  have hmain : get_pm25_v2 locResp sensorResp waqiResp parse now
      = get_pm25_from_waqi waqiResp := by
    unfold get_pm25_v2
    cases hne : (find_locations_by_coordinates locResp).isEmpty with
    | true => rw [if_pos hne]
    | false =>
      rw [if_neg (by rw [hne]; exact Bool.false_ne_true)]
      rcases hfb with h | ⟨e, h⟩ | h
      · rw [hne] at h
        exact absurd h Bool.false_ne_true
      · rw [h]
      · rw [h]
  refine ⟨hmain, ?_, ?_⟩
  · intro ms m hok hfind
    rw [hmain]
    unfold get_pm25_from_waqi
    rw [hok]
    dsimp only
    rw [hfind]
  · intro ms hok hfind
    rw [hmain]
    unfold get_pm25_from_waqi
    rw [hok]
    dsimp only
    rw [hfind]

/-- Witness for the amended C2: with no stations and a WAQI response
carrying PM2.5, the call resolves with the WAQI source label. -/
theorem C2_amended_witness :
    get_pm25_v2 (Except.ok []) (fun _ => Except.ok [])
        (Except.ok [⟨"pm25", 12, "t0", "Centro"⟩]) parseT0 0
      = (some 12, some "t0", "WAQI • Centro") :=
  (C2_amended_fallback (Except.ok []) (fun _ => Except.ok [])
      (Except.ok [⟨"pm25", 12, "t0", "Centro"⟩]) parseT0 0
      (Or.inl (by decide))).2.1
    [⟨"pm25", 12, "t0", "Centro"⟩] ⟨"pm25", 12, "t0", "Centro"⟩ rfl (by decide)

/-- Eleven candidate stations in distance order: the ten nearest carry a
PM2.5 sensor entry with a null id (so the probe loop skips them), the
eleventh has a working sensor id. -/
def elevenStations : List Location :=
  [⟨some "S1", some 1000, [⟨some "pm25", none⟩]⟩,
   ⟨some "S2", some 2000, [⟨some "pm25", none⟩]⟩,
   ⟨some "S3", some 3000, [⟨some "pm25", none⟩]⟩,
   ⟨some "S4", some 4000, [⟨some "pm25", none⟩]⟩,
   ⟨some "S5", some 5000, [⟨some "pm25", none⟩]⟩,
   ⟨some "S6", some 6000, [⟨some "pm25", none⟩]⟩,
   ⟨some "S7", some 7000, [⟨some "pm25", none⟩]⟩,
   ⟨some "S8", some 8000, [⟨some "pm25", none⟩]⟩,
   ⟨some "S9", some 9000, [⟨some "pm25", none⟩]⟩,
   ⟨some "S10", some 10000, [⟨some "pm25", none⟩]⟩,
   ⟨some "S11", some 11000, [⟨some "pm25", some 1⟩]⟩]

/-- Claim C5, counterexample: the skyblue2 variant of `get_pm25` (cited by
the claim) applies no cap: with eleven candidates whose first ten are
skipped for lacking a sensor id, the eleventh station is still queried and
its fresh reading is returned — stations beyond the claimed 10-station cap
are queried. -/
theorem C5_counterexample :
    (find_locations_by_coordinates (Except.ok elevenStations)).length = 11 ∧
    get_pm25_v2 (Except.ok elevenStations)
        (fun _ => Except.ok [⟨some 42, some "t0"⟩]) (Except.ok []) parseT0 0
      = (some 42, some "t0", "OpenAQ • S11") := by decide

/-- Claim C5 as amended: the skyblue.py variant truncates the ordered
candidate list to `DEFAULT_MAX_STATIONS_TO_QUERY = 10` before probing, so
its outcome depends only on the first ten candidates — stations beyond the
cap are never queried, even when stations inside the cap are skipped for
lacking a PM2.5 sensor id; the skyblue2 variant probes every candidate
(see the counterexample). -/
theorem C5_amended_cap
    (locResp locResp2 : Except String (List Location))
    (sensorResp : Nat → SensorResp1)
    (h10 : (find_locations_by_coordinates locResp).take DEFAULT_MAX_STATIONS_TO_QUERY
         = (find_locations_by_coordinates locResp2).take DEFAULT_MAX_STATIONS_TO_QUERY)
    (h1 : (find_locations_by_coordinates locResp).isEmpty = false)
    (h2 : (find_locations_by_coordinates locResp2).isEmpty = false) :
    get_pm25_v1 locResp sensorResp = get_pm25_v1 locResp2 sensorResp := by
  simp only [get_pm25_v1, h1, h2, Bool.false_eq_true, if_false, h10]

/-- Witness for the amended C5: the run over the eleven-station list (ten
skipped inside the cap, a data-bearing eleventh beyond it) is identical to
the run over the first ten candidates alone. -/
theorem C5_witness :
    get_pm25_v1 (Except.ok elevenStations)
        (fun _ => SensorResp1.ok [⟨some 42, some "t0"⟩])
      = get_pm25_v1 (Except.ok (elevenStations.take 10))
          (fun _ => SensorResp1.ok [⟨some 42, some "t0"⟩]) :=
  C5_amended_cap (Except.ok elevenStations) (Except.ok (elevenStations.take 10))
    (fun _ => SensorResp1.ok [⟨some 42, some "t0"⟩])
    (by decide) (by decide) (by decide)

/-- Claim C6: the spec's P4 scenario, parametrically: with three candidate
stations whose middle sensor query answers HTTP 429 while the first and
third return valid readings, skyblue's `get_pm25` still resolves from the
best of stations 1 and 3, and exactly one aggregate rate-limit warning is
surfaced for the whole call. -/
theorem C6_rate_limit_resilience
    (locResp : Except String (List Location)) (sensorResp : Nat → SensorResp1)
    (l1 l2 l3 : Location) (s1 s2 s3 : Nat) (ra rc : List Entry)
    (va vc : ℚ) (ta tc : String)
    (hc : find_locations_by_coordinates locResp = [l1, l2, l3])
    (hid1 : truthyId (get_pm25_sensor_id_from_location l1) = some s1)
    (hid2 : truthyId (get_pm25_sensor_id_from_location l2) = some s2)
    (hid3 : truthyId (get_pm25_sensor_id_from_location l3) = some s3)
    (hr1 : sensorResp s1 = SensorResp1.ok ra)
    (hr2 : sensorResp s2 = SensorResp1.http429)
    (hr3 : sensorResp s3 = SensorResp1.ok rc)
    (hl1 : latestFromResults ra = (some va, some ta))
    (hl3 : latestFromResults rc = (some vc, some tc)) :
    (get_pm25_v1 locResp sensorResp).rateLimitWarnings = 1 ∧
    ∃ m ∈ [Meas.mk va ta ("OpenAQ • " ++ locName1 l1),
           Meas.mk vc tc ("OpenAQ • " ++ locName1 l3)],
      (∀ x ∈ [Meas.mk va ta ("OpenAQ • " ++ locName1 l1),
              Meas.mk vc tc ("OpenAQ • " ++ locName1 l3)],
        pyStrLe x.dtIso m.dtIso = true) ∧
      get_pm25_v1 locResp sensorResp
        = ⟨some m.value, some m.dtIso, m.source, 1⟩ := by
  have hps1 : probeStation1 sensorResp l1
      = Except.ok (some ⟨va, ta, "OpenAQ • " ++ locName1 l1⟩, false) := by
    unfold probeStation1
    rw [hid1]
    dsimp only
    rw [hr1]
    dsimp only
    rw [hl1]
  have hps2 : probeStation1 sensorResp l2 = Except.ok (none, true) := by
    unfold probeStation1
    rw [hid2]
    dsimp only
    rw [hr2]
  have hps3 : probeStation1 sensorResp l3
      = Except.ok (some ⟨vc, tc, "OpenAQ • " ++ locName1 l3⟩, false) := by
    unfold probeStation1
    rw [hid3]
    dsimp only
    rw [hr3]
    dsimp only
    rw [hl3]
  have hpa3 : probeAll1 sensorResp [l3]
      = Except.ok ([⟨vc, tc, "OpenAQ • " ++ locName1 l3⟩], false) := by
    rw [probeAll1_cons, hps3]
    dsimp only
    rw [show probeAll1 sensorResp ([] : List Location) = Except.ok ([], false) from rfl]
    rfl
  have hpa23 : probeAll1 sensorResp [l2, l3]
      = Except.ok ([⟨vc, tc, "OpenAQ • " ++ locName1 l3⟩], true) := by
    rw [probeAll1_cons, hps2]
    dsimp only
    rw [hpa3]
    rfl
  have hpa : probeAll1 sensorResp [l1, l2, l3]
      = Except.ok ([⟨va, ta, "OpenAQ • " ++ locName1 l1⟩,
                    ⟨vc, tc, "OpenAQ • " ++ locName1 l3⟩], true) := by
    rw [probeAll1_cons, hps1]
    dsimp only
    rw [hpa23]
    rfl
  have htake : List.take DEFAULT_MAX_STATIONS_TO_QUERY [l1, l2, l3] = [l1, l2, l3] :=
    List.take_of_length_le (by simp [DEFAULT_MAX_STATIONS_TO_QUERY])
  have hrun : get_pm25_v1 locResp sensorResp
      = ⟨some (argmaxFirst (fun x => x.dtIso)
            (Meas.mk va ta ("OpenAQ • " ++ locName1 l1))
            [Meas.mk vc tc ("OpenAQ • " ++ locName1 l3)]).value,
         some (argmaxFirst (fun x => x.dtIso)
            (Meas.mk va ta ("OpenAQ • " ++ locName1 l1))
            [Meas.mk vc tc ("OpenAQ • " ++ locName1 l3)]).dtIso,
         (argmaxFirst (fun x => x.dtIso)
            (Meas.mk va ta ("OpenAQ • " ++ locName1 l1))
            [Meas.mk vc tc ("OpenAQ • " ++ locName1 l3)]).source, 1⟩ := by
    simp only [get_pm25_v1, hc, List.isEmpty_cons, Bool.false_eq_true, if_false,
      htake, hpa]
    rfl
  refine ⟨by rw [hrun], ?_⟩
  refine ⟨argmaxFirst (fun x => x.dtIso)
      (Meas.mk va ta ("OpenAQ • " ++ locName1 l1))
      [Meas.mk vc tc ("OpenAQ • " ++ locName1 l3)],
    argmaxFirst_mem _ _ _, argmaxFirst_ge _ _ _, hrun⟩

/-- Witness for C6: a concrete three-station run whose middle station is
rate-limited resolves from the third station's newer reading and records
the rate-limit notice once. -/
theorem C6_witness :
    (get_pm25_v1
        (Except.ok [⟨some "Near", some 1000, [⟨some "pm25", some 1⟩]⟩,
                    ⟨some "Mid", some 2000, [⟨some "pm25", some 2⟩]⟩,
                    ⟨some "Far", some 3000, [⟨some "pm25", some 3⟩]⟩])
        (fun sid =>
          if sid = 1 then SensorResp1.ok [⟨some 31, some "2024-01-01T01:00:00Z"⟩]
          else if sid = 2 then SensorResp1.http429
          else SensorResp1.ok [⟨some 33, some "2024-01-01T03:00:00Z"⟩])).rateLimitWarnings
      = 1 ∧
    ∃ m ∈ [Meas.mk 31 "2024-01-01T01:00:00Z" "OpenAQ • Near",
           Meas.mk 33 "2024-01-01T03:00:00Z" "OpenAQ • Far"],
      (∀ x ∈ [Meas.mk 31 "2024-01-01T01:00:00Z" "OpenAQ • Near",
              Meas.mk 33 "2024-01-01T03:00:00Z" "OpenAQ • Far"],
        pyStrLe x.dtIso m.dtIso = true) ∧
      get_pm25_v1
        (Except.ok [⟨some "Near", some 1000, [⟨some "pm25", some 1⟩]⟩,
                    ⟨some "Mid", some 2000, [⟨some "pm25", some 2⟩]⟩,
                    ⟨some "Far", some 3000, [⟨some "pm25", some 3⟩]⟩])
        (fun sid =>
          if sid = 1 then SensorResp1.ok [⟨some 31, some "2024-01-01T01:00:00Z"⟩]
          else if sid = 2 then SensorResp1.http429
          else SensorResp1.ok [⟨some 33, some "2024-01-01T03:00:00Z"⟩])
        = ⟨some m.value, some m.dtIso, m.source, 1⟩ := by
  have h := C6_rate_limit_resilience
    (Except.ok [⟨some "Near", some 1000, [⟨some "pm25", some 1⟩]⟩,
                ⟨some "Mid", some 2000, [⟨some "pm25", some 2⟩]⟩,
                ⟨some "Far", some 3000, [⟨some "pm25", some 3⟩]⟩])
    (fun sid =>
      if sid = 1 then SensorResp1.ok [⟨some 31, some "2024-01-01T01:00:00Z"⟩]
      else if sid = 2 then SensorResp1.http429
      else SensorResp1.ok [⟨some 33, some "2024-01-01T03:00:00Z"⟩])
    ⟨some "Near", some 1000, [⟨some "pm25", some 1⟩]⟩
    ⟨some "Mid", some 2000, [⟨some "pm25", some 2⟩]⟩
    ⟨some "Far", some 3000, [⟨some "pm25", some 3⟩]⟩
    1 2 3
    [⟨some 31, some "2024-01-01T01:00:00Z"⟩] [⟨some 33, some "2024-01-01T03:00:00Z"⟩]
    31 33 "2024-01-01T01:00:00Z" "2024-01-01T03:00:00Z"
    (by decide) (by decide) (by decide) (by decide)
    rfl rfl rfl (by decide) (by decide)
  exact h

end SkyGuard
